import Mathlib

/-!
Shallow embedding of `src/exception_handling/calculator_app.py`:
a `Calculator` with a `precision` field and a `history` list,
offering `calculate` (entry point: compute, round, append to history),
`perform_operation` (dispatch; sole layer catching `DivisionByZeroError`),
and `divide` (raises `DivisionByZeroError` on a zero divisor).

Python real numbers are modelled as rationals; Python `round(x, n)`
(round-half-to-even) is `roundTo`; raised exceptions are `Except.error`;
`print` output is collected in a `List String`; the implicit `None`
returns are `Option.none`.  `round(None, n)` in Python raises
`TypeError: type NoneType doesn't define __round__ method`, which is
modelled by `pyRound none n = Except.error roundNoneErr`.
State-mutating potential is modelled by threading the `Calculator`
value through every method.
-/

/-- Round-half-to-even of a rational to the nearest integer, the tie-breaking
rule of Python's built-in `round`. -/
def roundHalfEven (x : ℚ) : ℤ :=
  let f := x.floor
  if x - f < 1/2 then f
  else if x - f > 1/2 then f + 1
  else if f % 2 = 0 then f else f + 1

/-- Python `round(x, n)` on the rational model: round `x` to `n` decimal
digits, ties to even. -/
def roundTo (x : ℚ) (n : ℕ) : ℚ :=
  (roundHalfEven (x * 10 ^ n) : ℚ) / 10 ^ n

/-- Rendering of a number in the history and error strings: the natural
string form of the rational (an integer prints without a denominator),
standing in for Python's str() of the operand. -/
def pyNumStr (q : ℚ) : String :=
  if q.den = 1 then toString q.num else toString q

/-- The exception class raised by `divide` on a zero divisor
(`class DivisionByZeroError(Exception)`). -/
structure DivisionByZeroError where
  msg : String
deriving DecidableEq

/-- Python `TypeError`, raised by `round` when its argument is `None`. -/
structure PyTypeError where
  msg : String
deriving DecidableEq

/-- The `TypeError` that `round(None, n)` raises. -/
def roundNoneErr : PyTypeError :=
  ⟨"type NoneType doesn't define __round__ method"⟩

/-- The `@attrs.define class Calculator`: `precision` (default 2) and
`history` (default empty list). -/
structure Calculator where
  precision : ℕ
  history : List String
deriving DecidableEq

/-- A `Calculator()` built with the attrs defaults: precision 2, empty
history. -/
def calcDefault : Calculator := ⟨2, []⟩

/-- Message of the exception raised by `divide`:
f"Cannot divide \x7ba\x7d by zero". -/
def divideErrMsg (a : ℚ) : String :=
  "Cannot divide " ++ pyNumStr a ++ " by zero"

/-- Embedding of `Calculator.divide`: if `b == 0`, raise
`DivisionByZeroError(f"Cannot divide \x7ba\x7d by zero")`, else return `a / b`.
No statement assigns to `self`, so the returned state is the input state. -/
def Calculator.divide (c : Calculator) (a b : ℚ) :
    Except DivisionByZeroError ℚ × Calculator :=
  ((if b = 0 then Except.error ⟨divideErrMsg a⟩ else Except.ok (a / b)), c)

/-- The diagnostic printed by `perform_operation` when it catches the
division error: f"Error: Attempted to divide \x7ba\x7d by zero: \x7be\x7d". -/
def divideDiagMsg (a : ℚ) (e : DivisionByZeroError) : String :=
  "Error: Attempted to divide " ++ pyNumStr a ++ " by zero: " ++ e.msg

/-- Embedding of `Calculator.perform_operation`: dispatch on the label;
the divide branch delegates to `divide` and catches `DivisionByZeroError`,
printing one diagnostic and returning `None`; an unknown label falls off
the end of the function, returning `None` with no diagnostic.  Second
component of the inner pair is the list of printed lines. -/
def Calculator.perform_operation (c : Calculator) (operation : String)
    (a b : ℚ) : (Option ℚ × List String) × Calculator :=
  if operation = "add" then ((some (a + b), []), c)
  else if operation = "subtract" then ((some (a - b), []), c)
  else if operation = "multiply" then ((some (a * b), []), c)
  else if operation = "divide" then
    let dr := c.divide a b
    match dr.1 with
    | Except.ok v => ((some v, []), dr.2)
    | Except.error e => ((none, [divideDiagMsg a e]), dr.2)
  else ((none, []), c)

/-- Embedding of `rounded_result = round(result, self.precision)`:
`round` applied to the possibly-`None` result of the dispatch.  On `None`
it raises `TypeError`, exactly as Python's `round` does. -/
def pyRound (x : Option ℚ) (n : ℕ) : Except PyTypeError ℚ :=
  match x with
  | none => Except.error roundNoneErr
  | some v => Except.ok (roundTo v n)

/-- The history record `f"\x7ba\x7d \x7boperation\x7d \x7bb\x7d = \x7brounded_result\x7d"`. -/
def histEntry (a : ℚ) (operation : String) (b : ℚ) (r : ℚ) : String :=
  pyNumStr a ++ " " ++ operation ++ " " ++ pyNumStr b ++ " = " ++ pyNumStr r

/-- Embedding of `Calculator.calculate`: run `perform_operation`, round the
result (a raised `TypeError` propagates, leaving the state as it was),
append one formatted history entry, return the rounded value.  Result is
(returned value or raised error, state after the call, printed lines). -/
def Calculator.calculate (c : Calculator) (operation : String) (a b : ℚ) :
    Except PyTypeError (Option ℚ) × Calculator × List String :=
  let pr := c.perform_operation operation a b
  let c1 := pr.2
  match pyRound pr.1.1 c1.precision with
  | Except.error e => (Except.error e, c1, pr.1.2)
  | Except.ok rounded =>
      (Except.ok (some rounded),
       { c1 with history := c1.history ++ [histEntry a operation b rounded] },
       pr.1.2)

/-- The raw arithmetic of the three total branches of the dispatch. -/
def rawOp (operation : String) (a b : ℚ) : ℚ :=
  if operation = "add" then a + b
  else if operation = "subtract" then a - b
  else a * b

lemma perform_operation_state (c : Calculator) (operation : String)
    (a b : ℚ) : (c.perform_operation operation a b).2 = c := by
  unfold Calculator.perform_operation Calculator.divide
  repeat' split
  all_goals rfl

/-- C3: for every real a (and any calculator state), divide(a, 0) raises
DivisionByZeroError — the zero test being exact equality — with message
"Cannot divide <a> by zero", <a> rendered in its natural string form, so
the message contains a and the word "zero"; the state is unchanged. -/
theorem divide_by_zero_raises (c : Calculator) (a : ℚ) :
    c.divide a 0 =
      (Except.error ⟨"Cannot divide " ++ pyNumStr a ++ " by zero"⟩, c) := by
  rfl

/-- C7: for b ≠ 0, divide(a, b) returns exactly a / b — no rounding at
this layer — and leaves the state unchanged. -/
theorem divide_exact_quotient (c : Calculator) (a b : ℚ) (h : b ≠ 0) :
    c.divide a b = (Except.ok (a / b), c) := by
  simp [Calculator.divide, h]

/-- Witness for C7 at a = 10, b = 4: the quotient is exactly 5/2. -/
theorem divide_exact_quotient_witness :
    (4 : ℚ) ≠ 0 ∧ calcDefault.divide 10 4 = (Except.ok ((10 : ℚ) / 4), calcDefault) :=
  ⟨by norm_num, divide_exact_quotient calcDefault 10 4 (by norm_num)⟩

/-- C2: for every real a, performOperation("divide", a, 0) returns the
"no value" sentinel (a normal return, so no error propagates — the
embedding of performOperation has no error channel because the only
raisable error, DivisionByZeroError, is caught inside it), emits exactly
one diagnostic naming the dividend, the zero divisor and the error's
message text, and leaves the state unchanged. -/
theorem perform_operation_div_zero (c : Calculator) (a : ℚ) :
    c.perform_operation "divide" a 0 =
      ((none,
        ["Error: Attempted to divide " ++ pyNumStr a ++ " by zero: " ++
          ("Cannot divide " ++ pyNumStr a ++ " by zero")]), c) := by
  rfl

lemma perform_operation_unknown_aux (c : Calculator) (operation : String)
    (a b : ℚ)
    (h : operation ≠ "add" ∧ operation ≠ "subtract" ∧
         operation ≠ "multiply" ∧ operation ≠ "divide") :
    c.perform_operation operation a b = ((none, []), c) := by
  simp [Calculator.perform_operation, h.1, h.2.1, h.2.2.1, h.2.2.2]

/-- C8: for every operation label outside {add, subtract, multiply,
divide}, performOperation falls through to an implicit "no value" return
and emits no diagnostic. -/
theorem perform_operation_unknown_label (c : Calculator) (operation : String)
    (a b : ℚ)
    (h : operation ≠ "add" ∧ operation ≠ "subtract" ∧
         operation ≠ "multiply" ∧ operation ≠ "divide") :
    c.perform_operation operation a b = ((none, []), c) :=
  perform_operation_unknown_aux c operation a b h

/-- Witness for C8 at the label "power". -/
theorem perform_operation_unknown_label_witness :
    (("power" : String) ≠ "add" ∧ ("power" : String) ≠ "subtract" ∧
     ("power" : String) ≠ "multiply" ∧ ("power" : String) ≠ "divide") ∧
    calcDefault.perform_operation "power" 10 5 = ((none, []), calcDefault) :=
  ⟨by decide, perform_operation_unknown_label calcDefault "power" 10 5 (by decide)⟩

/-- C10: neither performOperation nor divide modifies any Calculator
state: after either call both the history and the precision field are
exactly the input's (only calculate ever appends to history). -/
theorem perform_operation_divide_frame (c : Calculator) (operation : String)
    (a b : ℚ) :
    ((c.perform_operation operation a b).2.history = c.history ∧
     (c.perform_operation operation a b).2.precision = c.precision) ∧
    ((c.divide a b).2.history = c.history ∧
     (c.divide a b).2.precision = c.precision) := by
  have h := perform_operation_state c operation a b
  exact ⟨⟨by rw [h], by rw [h]⟩, rfl, rfl⟩

/-- C4: for op in {add, subtract, multiply}, calculate(op, a, b) returns
round(raw_op(a, b), precision) and appends exactly one history entry
"<a> <op> <b> = <rounded>" built from the rounded value; no diagnostic is
printed. -/
theorem calculate_basic_ops (c : Calculator) (operation : String) (a b : ℚ)
    (h : operation = "add" ∨ operation = "subtract" ∨ operation = "multiply") :
    c.calculate operation a b =
      (Except.ok (some (roundTo (rawOp operation a b) c.precision)),
       { c with history := c.history ++
           [histEntry a operation b (roundTo (rawOp operation a b) c.precision)] },
       []) := by
  rcases h with h | h | h <;> subst h <;> rfl

/-- Witness for C4: calculate("add", 10, 5) on a fresh calculator. -/
theorem calculate_basic_ops_witness :
    (("add" : String) = "add" ∨ ("add" : String) = "subtract" ∨
      ("add" : String) = "multiply") ∧
    calcDefault.calculate "add" 10 5 =
      (Except.ok (some (roundTo (rawOp "add" 10 5) calcDefault.precision)),
       { calcDefault with history := calcDefault.history ++
           [histEntry 10 "add" 5 (roundTo (rawOp "add" 10 5) calcDefault.precision)] },
       []) :=
  ⟨Or.inl rfl, calculate_basic_ops calcDefault "add" 10 5 (Or.inl rfl)⟩

/-- C5: for b ≠ 0, calculate("divide", a, b) returns round(a/b, precision)
with no raised error, appending exactly one history entry; in particular
on the default calculator (precision 2), calculate("divide", 10, 3)
returns 3.33 = 333/100. -/
theorem calculate_divide_nonzero :
    (∀ (c : Calculator) (a b : ℚ), b ≠ 0 →
      c.calculate "divide" a b =
        (Except.ok (some (roundTo (a / b) c.precision)),
         { c with history := c.history ++
             [histEntry a "divide" b (roundTo (a / b) c.precision)] },
         [])) ∧
    (calcDefault.calculate "divide" 10 3).1 = Except.ok (some (333 / 100)) := by
  constructor
  · intro c a b hb
    unfold Calculator.calculate Calculator.perform_operation Calculator.divide
    simp [hb, pyRound]
  · show Except.ok (some (roundTo ((10 : ℚ) / 3) 2)) = Except.ok (some (333 / 100))
    norm_num [roundTo, roundHalfEven, Rat.floor]

/-- Witness for C5: the universal part applied at a = 10, b = 3 on the
default calculator. -/
theorem calculate_divide_nonzero_witness :
    (3 : ℚ) ≠ 0 ∧
    calcDefault.calculate "divide" 10 3 =
      (Except.ok (some (roundTo ((10 : ℚ) / 3) calcDefault.precision)),
       { calcDefault with history := calcDefault.history ++
           [histEntry 10 "divide" 3 (roundTo ((10 : ℚ) / 3) calcDefault.precision)] },
       []) :=
  ⟨by norm_num, calculate_divide_nonzero.1 calcDefault 10 3 (by norm_num)⟩

/-- C1 counterexample: at a = 10 on a fresh calculator,
calculate("divide", 10, 0) does not return the "no value" sentinel: the
rounding step raises a TypeError on the sentinel, so the call fails
instead of returning. -/
theorem calculate_div_zero_sentinel_cex :
    (calcDefault.calculate "divide" 10 0).1 ≠ Except.ok none ∧
    (calcDefault.calculate "divide" 10 0).1 = Except.error roundNoneErr := by
  refine ⟨fun hc => ?_, rfl⟩
  have h : (Except.error roundNoneErr : Except PyTypeError (Option ℚ)) =
      Except.ok none := hc
  exact Except.noConfusion h

/-- C1 amended: for every real a and every Calculator state,
calculate("divide", a, 0) does not return the sentinel — the unconditional
rounding step raises a TypeError when its input is the sentinel — the
history append is skipped (state exactly unchanged), and the one
diagnostic printed by the dispatch layer is emitted. -/
theorem calculate_div_zero_raises (c : Calculator) (a : ℚ) :
    c.calculate "divide" a 0 =
      (Except.error roundNoneErr, c,
       [divideDiagMsg a ⟨divideErrMsg a⟩]) := by
  rfl

/-- C9: for every operation label outside {add, subtract, multiply,
divide}, calculate does not return a value: the unconditional rounding
step raises a TypeError (not a DivisionByZeroError — the raised value is
of TypeError kind by its type) on the sentinel dispatch result, and the
history is left unchanged. -/
theorem calculate_unknown_label_raises (c : Calculator) (operation : String)
    (a b : ℚ)
    (h : operation ≠ "add" ∧ operation ≠ "subtract" ∧
         operation ≠ "multiply" ∧ operation ≠ "divide") :
    c.calculate operation a b = (Except.error roundNoneErr, c, []) := by
  unfold Calculator.calculate
  rw [perform_operation_unknown_aux c operation a b h]
  rfl

/-- Witness for C9 at the label "modulo". -/
theorem calculate_unknown_label_raises_witness :
    (("modulo" : String) ≠ "add" ∧ ("modulo" : String) ≠ "subtract" ∧
     ("modulo" : String) ≠ "multiply" ∧ ("modulo" : String) ≠ "divide") ∧
    calcDefault.calculate "modulo" 10 5 =
      (Except.error roundNoneErr, calcDefault, []) :=
  ⟨by decide, calculate_unknown_label_raises calcDefault "modulo" 10 5 (by decide)⟩

/-- C6: the history sequence is append-only: for any call to calculate,
performOperation, or divide, the history before the call is a prefix of
the history after it (the new history is the old one followed by some,
possibly empty, list of new entries). -/
theorem history_append_only (c : Calculator) (operation : String) (a b : ℚ) :
    (∃ t, ((c.calculate operation a b).2.1).history = c.history ++ t) ∧
    (∃ t, ((c.perform_operation operation a b).2).history = c.history ++ t) ∧
    (∃ t, ((c.divide a b).2).history = c.history ++ t) := by
  have hs := perform_operation_state c operation a b
  refine ⟨?_, ⟨[], by rw [hs]; simp⟩, ⟨[], by simp [Calculator.divide]⟩⟩
  rcases hp : pyRound (c.perform_operation operation a b).1.1
      (c.perform_operation operation a b).2.precision with e | r
  all_goals rw [hs] at hp
  · exact ⟨[], by simp [Calculator.calculate, hp, hs]⟩
  · exact ⟨[histEntry a operation b r], by simp [Calculator.calculate, hp, hs]⟩
